import Mathlib

/-!
Verification development for the Vex_Ads repository.

The definitions below are a shallow embedding of the Python sources:
pure functions become Lean functions, datetimes become integer epoch
seconds (UTC), Python floats are modelled as exact rationals, dict
records become structures, and fallible code returns `Option`/`Except`.
External collaborators (the ad-library search, the Gemini capability
providers, the Supabase record and object stores) are modelled as
explicit outcome parameters, matching the interface boundary in the
specification.
-/

namespace VexAds

/-- A pixel as an (r, g, b) triple of channel values, as produced by
PIL `getdata` on an RGB image. -/
def Pixel : Type := ℕ × ℕ × ℕ

instance : DecidableEq Pixel := by
  unfold Pixel
  infer_instance

/-- An RGB raster image: width, height, and a pixel lookup function
(row-major, `pix x y` is column `x` of row `y`). -/
structure Img where
  w : ℕ
  h : ℕ
  pix : ℕ → ℕ → Pixel

/-- `Image.crop((x0, y0, x1, y1))` from PIL: a view of the rectangle
with the given corners. -/
def crop (img : Img) (x0 y0 x1 y1 : ℕ) : Img :=
  ⟨x1 - x0, y1 - y0, fun x y => img.pix (x0 + x) (y0 + y)⟩

/-- `Image.getdata()` from PIL: the pixels of the image in row-major
order. -/
def getdata (img : Img) : List Pixel :=
  (List.range img.h).flatMap (fun y => (List.range img.w).map (fun x => img.pix x y))

/-! ## Reference Ranking Engine (src/services/meta_api.py) -/

/-- The `ad_delivery_start` slot of an ad dict as `calculate_winner_score`
sees it: `missing` is an absent (or Python-falsy) value, `unparsable` is
a string that `datetime.fromisoformat` rejects, and `parsed t` is a
value that parses to epoch second `t` (UTC). -/
inductive DeliveryStart where
  | missing
  | unparsable
  | parsed (t : ℤ)
deriving DecidableEq

/-- The fields of the processed-ad dict that `calculate_winner_score`
reads: `ad_delivery_start` and `is_active` (`dict.get` default `False`). -/
structure AdScoreInput where
  ad_delivery_start : DeliveryStart
  is_active : Bool
deriving DecidableEq

/-- Whole days between two epoch-second instants, as Python's
`(now - start).days` computes it: `timedelta.days` floors, so this is
floor division by 86400 seconds. -/
def whole_days (now start : ℤ) : ℤ :=
  Int.fdiv (now - start) 86400

/-- `calculate_winner_score` from src/services/meta_api.py: 0 for a
missing or unparsable `ad_delivery_start`; otherwise
`days_running = (now - start).days`; 0 when `days_running < 7`; else
`days_running * (1.5 if is_active else 1.0)`. -/
def calculate_winner_score (now : ℤ) (ad : AdScoreInput) : ℚ :=
  match ad.ad_delivery_start with
  | .missing => 0
  | .unparsable => 0
  | .parsed start =>
    let days_running := whole_days now start
    if days_running < 7 then 0
    else (days_running : ℚ) * (if ad.is_active then 3 / 2 else 1)

/-- The winner score as the specification states it:
`days_running = max(0, whole_days(now - delivery_start))` in UTC, score 0
for a missing or unparsable `delivery_start`, score 0 whenever
`days_running < 7`, and otherwise `days_running * multiplier` with
multiplier 1.5 for active and 1.0 for inactive candidates. -/
def spec_winner_score (now : ℤ) (ad : AdScoreInput) : ℚ :=
  match ad.ad_delivery_start with
  | .missing => 0
  | .unparsable => 0
  | .parsed start =>
    let days_running := max 0 (whole_days now start)
    if days_running < 7 then 0
    else (days_running : ℚ) * (if ad.is_active then 3 / 2 else 1)

/-- The fields of a raw SearchAPI ad object that `process_ad_data`
consults for the record slots the claims are about.  `start_date` is
pre-parsed like `DeliveryStart`; `end_date` is the activity-related
field that the code deliberately ignores when fixing `is_active`. -/
structure RawAd where
  start_date : DeliveryStart
  end_date : Option String
  ad_archive_id : Option String
  archive_id : Option String
  raw_id : Option String
  page_id : Option String
deriving DecidableEq

/-- The slots of the processed-ad dict built by `process_ad_data` that
the claims mention. -/
structure ProcessedAd where
  ad_id : Option String
  page_id : String
  ad_delivery_start : Option ℤ
  is_active : Bool
  winner_score : ℚ
deriving DecidableEq

/-- `process_ad_data` from src/services/meta_api.py, restricted to the
slots above: `is_active` is assigned the literal `True` before any field
of the raw ad is consulted; `ad_delivery_start` keeps only a parse
success; `ad_id` is the `or`-chain over `ad_archive_id`, `archive_id`,
`id`; `page_id` falls back to `"unknown"`; `winner_score` is
`calculate_winner_score` on the dict just built. -/
def process_ad_data (now : ℤ) (raw : RawAd) : ProcessedAd :=
  let is_active := true
  let ad_delivery_start : Option ℤ :=
    match raw.start_date with
    | .parsed t => some t
    | _ => none
  let ad_id := (raw.ad_archive_id.or raw.archive_id).or raw.raw_id
  let page_id := raw.page_id.getD "unknown"
  let winner_score := calculate_winner_score now
    { ad_delivery_start :=
        match ad_delivery_start with
        | some t => .parsed t
        | none => .missing
      is_active := is_active }
  { ad_id := ad_id
    page_id := page_id
    ad_delivery_start := ad_delivery_start
    is_active := is_active
    winner_score := winner_score }

/-- The `active_status` argument that the analyze route passes to
`fetch_ads_from_searchapi` (src/api/routes/competitors.py line 95). -/
def analyze_fetch_active_status : String := "all"

/-! ## Persistence and the analyze route (src/models/database.py,
src/api/routes/competitors.py) -/

/-- A row of the `competitor_ads` table, restricted to the columns the
claims are about.  `rec_id` is the database-assigned `id`. -/
structure AdRecord where
  rec_id : ℕ
  session_id : String
  ad_id : Option String
  winner_score : ℚ
deriving DecidableEq

/-- `DatabaseService.get_competitor_ad_by_meta_id`: the first row whose
`session_id` and `ad_id` match (equality filter plus `limit 1`). -/
def get_competitor_ad_by_meta_id (db : List AdRecord) (sid : String)
    (meta_ad_id : Option String) : Option AdRecord :=
  db.find? (fun r => r.session_id == sid && r.ad_id == meta_ad_id)

/-- `DatabaseService.create_competitor_ad`: inserts a fresh row and
returns it; the store assigns the id `fresh`. -/
def create_competitor_ad (db : List AdRecord) (fresh : ℕ) (sid : String)
    (meta_ad_id : Option String) (score : ℚ) : List AdRecord × AdRecord :=
  let row : AdRecord := ⟨fresh, sid, meta_ad_id, score⟩
  (db ++ [row], row)

/-- One per-ad entry of the analyze response (`CompetitorAdResponse`),
restricted to the fields the claims mention.  `resp_id` is the record id
returned to the caller. -/
structure RespEntry where
  resp_id : ℕ
  ad_id : Option String
  is_active : Bool
  winner_score : ℚ
deriving DecidableEq

/-- The state threaded through the per-ad loop of `analyze_competitor`:
the `competitor_ads` rows, the next database id, and the response list
built so far. -/
structure AnalyzeState where
  db : List AdRecord
  next_id : ℕ
  responses : List RespEntry
deriving DecidableEq

/-- One iteration of the loop over `raw_ads` in `analyze_competitor`
(src/api/routes/competitors.py lines 112-207): process the raw ad, look
the key `(session_id, ad_id)` up, and either answer with the existing
row's id (leaving the table untouched) or insert a fresh row.  The
response entry carries the freshly computed `winner_score` and
`is_active` in both branches, as the route does. -/
def process_one_ad (now : ℤ) (sid : String) (st : AnalyzeState) (raw : RawAd) :
    AnalyzeState :=
  match get_competitor_ad_by_meta_id st.db sid (process_ad_data now raw).ad_id with
  | some existing =>
    { st with responses := st.responses ++
        [⟨existing.rec_id, (process_ad_data now raw).ad_id,
          (process_ad_data now raw).is_active,
          (process_ad_data now raw).winner_score⟩] }
  | none =>
    { db := (create_competitor_ad st.db st.next_id sid
        (process_ad_data now raw).ad_id (process_ad_data now raw).winner_score).1
      next_id := st.next_id + 1
      responses := st.responses ++
        [⟨(create_competitor_ad st.db st.next_id sid
            (process_ad_data now raw).ad_id
            (process_ad_data now raw).winner_score).2.rec_id,
          (process_ad_data now raw).ad_id,
          (process_ad_data now raw).is_active,
          (process_ad_data now raw).winner_score⟩] }

/-- The whole per-ad loop of `analyze_competitor`: fold the iteration
over the fetched raw ads, starting from the persisted table. -/
def analyze_competitor_loop (now : ℤ) (sid : String) (db : List AdRecord)
    (next_id : ℕ) (raws : List RawAd) : AnalyzeState :=
  raws.foldl (process_one_ad now sid) ⟨db, next_id, []⟩

/-- Two rows occupy different deduplication keys: they differ in
`session_id` or in `ad_id`.  "At most one record per key" is
`List.Pairwise key_distinct` over the table. -/
def key_distinct (r s : AdRecord) : Prop :=
  ¬(r.session_id = s.session_id ∧ r.ad_id = s.ad_id)

instance : DecidableRel key_distinct := fun _ _ => by
  unfold key_distinct
  infer_instance

/-! ## Ranking order (src/api/routes/competitors.py lines 211-213 and
283-286) -/

/-- The intended order of a ranked list: a later entry never out-scores
an earlier one. -/
def score_ge (a b : RespEntry) : Prop :=
  b.winner_score ≤ a.winner_score

/-- Stable descending insertion: `x` goes in front of the first element
whose `winner_score` does not exceed `x`'s, so an earlier-fetched entry
stays in front of later entries with an equal score.  This is the
characterisation of Python's stable `list.sort(key=..., reverse=True)`. -/
def insert_desc (x : RespEntry) : List RespEntry → List RespEntry
  | [] => [x]
  | y :: ys =>
    if y.winner_score ≤ x.winner_score then x :: y :: ys
    else y :: insert_desc x ys

/-- `responses.sort(key=lambda a: a.winner_score, reverse=True)`: stable
sort, non-increasing in `winner_score`. -/
def sort_by_score_desc : List RespEntry → List RespEntry
  | [] => []
  | x :: xs => insert_desc x (sort_by_score_desc xs)

/-- The list the analyze route returns: the built responses sorted by
`winner_score` descending, then the top 5 (`competitor_ads[:5]`). -/
def analyze_top_winners (responses : List RespEntry) : List RespEntry :=
  (sort_by_score_desc responses).take 5

/-- The list the GET `/competitors/{session_id}` route returns: the
fetched rows (in the record store's fetch order), sorted by
`winner_score` descending. -/
def get_competitor_ads_route (fetched : List RespEntry) : List RespEntry :=
  sort_by_score_desc fetched

/-! ## Compositor text placement (src/services/image_compositor.py,
`_find_best_text_position`) -/

/-- A candidate text region as built in `_find_best_text_position`: a
name, the `y` position used for the text, and the crop box of the
horizontal band. -/
structure Region where
  name : String
  ypos : ℤ
  x0 : ℕ
  y0 : ℕ
  x1 : ℕ
  y1 : ℕ
deriving DecidableEq, Inhabited

/-- The pixels of a region of the image, as
`rgb_image.crop(region.slice).getdata()` yields them. -/
def region_pixels (img : Img) (r : Region) : List Pixel :=
  getdata (crop img r.x0 r.y0 r.x1 r.y1)

/-- `sum(sum(p) for p in pixels) / (len(pixels) * 3)`: the mean
luminance of a pixel list.  Division in ℚ; the callers guard against the
empty list exactly as the source does. -/
def avg_brightness (ps : List Pixel) : ℚ :=
  (ps.map (fun p => ((p.1 + p.2.1 + p.2.2 : ℕ) : ℚ))).sum / (ps.length * 3)

/-- `sum(p) / 3` for one pixel, as in `brightness_values`. -/
def pixel_brightness (p : Pixel) : ℚ :=
  ((p.1 + p.2.1 + p.2.2 : ℕ) : ℚ) / 3

/-- `mean_brightness` over the `brightness_values` of a pixel list. -/
def brightness_mean (ps : List Pixel) : ℚ :=
  (ps.map pixel_brightness).sum / ps.length

/-- The luminance variance of a pixel list, as computed over
`brightness_values` in `_find_best_text_position`. -/
def brightness_variance (ps : List Pixel) : ℚ :=
  (ps.map (fun p => (pixel_brightness p - brightness_mean ps) ^ 2)).sum / ps.length

/-- The brightness penalty: 50 when the mean luminance is above 200 or
below 50, else 0. -/
def brightness_penalty (avg : ℚ) : ℚ :=
  if avg > 200 ∨ avg < 50 then 50 else 0

/-- The candidate score of a region:
`1000 - variance - brightness_penalty`. -/
def region_score (img : Img) (r : Region) : ℚ :=
  1000 - brightness_variance (region_pixels img r) -
    brightness_penalty (avg_brightness (region_pixels img r))

/-- The three candidate regions of `_find_best_text_position` for an
image of the given size: top, middle and bottom thirds, with the `y`
text positions 60, `height // 2 - 100` and `height - 220`. -/
def regions_of (img : Img) : List Region :=
  [ ⟨"top", 60, 0, 0, img.w, img.h / 3⟩,
    ⟨"middle", ((img.h / 2 : ℕ) : ℤ) - 100, 0, img.h / 3, img.w, 2 * img.h / 3⟩,
    ⟨"bottom", (img.h : ℤ) - 220, 0, 2 * img.h / 3, img.w, img.h⟩ ]

/-- The selection loop of `_find_best_text_position`: walk the candidate
regions keeping the best seen, skipping empty regions, replacing the
best only on a strictly larger score (`if score > best_score`). -/
def select_loop (img : Img) : List Region → Region → ℚ → Region
  | [], best, _ => best
  | r :: rs, best, best_score =>
    if (region_pixels img r).isEmpty then select_loop img rs best best_score
    else if best_score < region_score img r then
      select_loop img rs r (region_score img r)
    else select_loop img rs best best_score

/-- The region `_find_best_text_position` settles on: the loop starts
from the bottom region as default with `best_score = -1`. -/
def select_best_region (img : Img) : Region :=
  select_loop img (regions_of img) (regions_of img).getLast! (-1)

/-- `_find_best_text_position` itself returns a dict holding the `y`
position of the selected region. -/
def find_best_text_position (img : Img) : ℤ :=
  (select_best_region img).ypos

/-- Mean luminance in the legible window `[50, 200]`, the range the
brightness penalty leaves unpenalised. -/
def in_brightness_range (avg : ℚ) : Prop :=
  50 ≤ avg ∧ avg ≤ 200

instance (avg : ℚ) : Decidable (in_brightness_range avg) := by
  unfold in_brightness_range
  infer_instance

/-! ## Image Synthesizer and its fallback (src/services/image_generator.py) -/

/-- `_create_fallback_image`: the deterministic 1080x1080 diagonal
gradient drawn row by row from (30, 30, 35) towards (50, 50, 60).  The
float interpolation `int(c1 + (c2 - c1) * i / 1080)` is modelled as the
exact integer floor it computes for these non-negative channels. -/
def create_fallback_image : Img :=
  { w := 1080
    h := 1080
    pix := fun _ y => (30 + 20 * y / 1080, 30 + 20 * y / 1080, 35 + 25 * y / 1080) }

/-- The outcome of one Gemini image-synthesis call as the pipeline's
synthesizer sees it: either a generated image with its measured latency,
or an exception message with the latency measured up to the failure. -/
def SynthOutcome : Type := Except (String × ℕ) (Img × ℕ)

/-- Nearest-index resampling standing in for PIL's deterministic LANCZOS
resize: the resampling kernel is abstracted, its determinism is not. -/
def resize_nearest (img : Img) (nw nh : ℕ) : Img :=
  ⟨nw, nh, fun x y => img.pix (x * img.w / nw) (y * img.h / nh)⟩

/-- `generate_ad_image` from src/services/image_generator.py, the
synthesizer the generate route calls: a successful provider response is
resized to 1080x1080 and returned with its latency; every exception is
caught and replaced by the fallback gradient (the function never
raises). -/
def image_generator_generate_ad_image (outcome : SynthOutcome) : Img × ℕ :=
  match outcome with
  | .ok (img, t) => (resize_nearest img 1080 1080, t)
  | .error (_, t) => (create_fallback_image, t)

/-! ## The generate route fan-out (src/api/routes/generate.py,
`generate_and_composite_ad` and the `asyncio.gather` call) -/

/-- One creative concept as the creative director returns it: the
structured visual prompt and the short hook. -/
structure Concept where
  visual_prompt : String
  hook : String
deriving DecidableEq

/-- The `AdFramework` enum from src/models/schemas.py. -/
inductive AdFramework where
  | pas
  | social_proof
  | transformation
deriving DecidableEq

/-- `GeneratedAd` from src/models/schemas.py: the pydantic model the
generate route imports and constructs.  All five fields are required
(`Field(...)`); the class declares no `image_url` or `image_path`
field. -/
structure GeneratedAd where
  framework : AdFramework
  hook : String
  body : String
  cta : String
  visual_concept : String
deriving DecidableEq

/-- The keyword arguments of one `GeneratedAd(...)` construction, one
optional slot per field the class declares.  Keywords the class does
not declare (the route's `image_url` and `image_path`) are dropped
here, as pydantic's default `extra="ignore"` drops them. -/
structure GeneratedAdKwargs where
  framework : Option AdFramework
  hook : Option String
  body : Option String
  cta : Option String
  visual_concept : Option String
deriving DecidableEq

/-- Pydantic model construction: every required field must be supplied,
otherwise the constructor raises `ValidationError`. -/
def pydantic_construct_generated_ad (kw : GeneratedAdKwargs) :
    Except String GeneratedAd :=
  match kw.framework, kw.hook, kw.body, kw.cta, kw.visual_concept with
  | some f, some h, some b, some c, some v => .ok ⟨f, h, b, c, v⟩
  | _, _, _, _, _ => .error
      "ValidationError: framework, body and cta are required fields of GeneratedAd"

/-- The keyword shape of both `GeneratedAd(...)` calls in
`generate_and_composite_ad` (src/api/routes/generate.py lines 193-198
and 211-217): of the declared fields only `hook` and `visual_concept`
are passed (in the except branch via `concept.get` with defaults,
the same values for a well-formed concept); `framework`, `body` and
`cta` are absent, and the supplied `image_url`/`image_path` keywords
are not declared by the class. -/
def route_generated_ad_kwargs (hook visual_concept : String) :
    GeneratedAdKwargs :=
  { framework := none
    hook := some hook
    body := none
    cta := none
    visual_concept := some visual_concept }

/-- The outcome of the per-concept upload-and-sign tail of
`generate_and_composite_ad`, as a function of the bytes uploaded: either
the storage path and signed URL, or an exception message. -/
def UploadOutcome : Type := Img → Except String (String × String)

/-- `asyncio.gather` without `return_exceptions`: if every task
returns, the values come back in argument order; if any task raises,
the await raises (the completion order of concurrent failures is
abstracted to argument order). -/
def asyncio_gather {α : Type} : List (Except String α) → Except String (List α)
  | [] => .ok []
  | .ok a :: rest => (asyncio_gather rest).map (fun l => a :: l)
  | .error e :: _ => .error e

/-- `generate_and_composite_ad` from src/api/routes/generate.py: the
synthesizer never raises, and the uploaded bytes are the synthesized
image unchanged (the compositor call is commented out); the try branch
then constructs `GeneratedAd` with only `hook` and `visual_concept` of
its required fields; on any exception in the try block — an upload
failure or that construction's `ValidationError` — the `except` handler
runs and performs its own `GeneratedAd` construction of the same
keyword shape, whose outcome leaves the task uncaught. -/
def generate_and_composite_ad (c : Concept) (synth : SynthOutcome)
    (upload : UploadOutcome) : Except String (GeneratedAd × ℕ) :=
  match upload (image_generator_generate_ad_image synth).1 with
  | .ok _pu =>
    match pydantic_construct_generated_ad
        (route_generated_ad_kwargs c.hook c.visual_prompt) with
    | .ok ad => .ok (ad, (image_generator_generate_ad_image synth).2)
    | .error _ =>
      (pydantic_construct_generated_ad
        (route_generated_ad_kwargs c.hook c.visual_prompt)).map
        (fun ad => (ad, 0))
  | .error _ =>
    (pydantic_construct_generated_ad
      (route_generated_ad_kwargs c.hook c.visual_prompt)).map
      (fun ad => (ad, 0))

/-- The `asyncio.gather` fan-out over `enumerate(ad_concepts)`: one task
per concept, each with its own synthesis and upload outcomes. -/
def generate_route_fan_out (concepts : List Concept)
    (synth : ℕ → SynthOutcome) (upload : ℕ → UploadOutcome) :
    Except String (List (GeneratedAd × ℕ)) :=
  asyncio_gather (concepts.enum.map
    (fun p => generate_and_composite_ad p.2 (synth p.1) (upload p.1)))

/-! ## Rate-limit classification (src/services/ai_generator.py) -/

/-- Whether the character list `n` is an initial segment of `h`. -/
def leads_with : List Char → List Char → Bool
  | [], _ => true
  | _ :: _, [] => false
  | a :: as, b :: bs => a == b && leads_with as bs

/-- Whether the character list `n` occurs contiguously inside `h`. -/
def has_sub (n : List Char) : List Char → Bool
  | [] => leads_with n []
  | b :: bs => leads_with n (b :: bs) || has_sub n bs

/-- Python's `needle in haystack` on strings: substring containment. -/
def str_has (haystack needle : String) : Bool :=
  has_sub needle.data haystack.data

/-- The quota-exhaustion signature test of `generate_ad_image` in
src/services/ai_generator.py: `"429" in error_str and
"RESOURCE_EXHAUSTED" in error_str`. -/
def rate_limit_sig (e : String) : Bool :=
  str_has e "429" && str_has e "RESOURCE_EXHAUSTED"

/-- The outcome of the underlying Gemini call for
`ai_generator.generate_ad_image`: a response from which the image bytes
may or may not be extractable, or an exception message. -/
def AiCallOutcome : Type := Except String (Option Img)

/-- `generate_ad_image` from src/services/ai_generator.py: on an
exception whose text carries the quota signature it raises
`RateLimitError` (modelled as `.error` with the raised message),
choosing the daily-quota wording when the text also mentions
`limit: 0` or `PerDay`; any other exception is printed and absorbed
into `None`; a successful call returns the extracted bytes. -/
def ai_generator_generate_ad_image (outcome : AiCallOutcome) :
    Except String (Option Img) :=
  match outcome with
  | .ok r => .ok r
  | .error e =>
    if rate_limit_sig e then
      if str_has e "limit: 0" || str_has e "PerDay" then
        .error ("Gemini API daily quota exhausted. Please enable billing at " ++
          "https://aistudio.google.com/ or wait until tomorrow for quota reset.")
      else .error ("Gemini API rate limited: " ++ e)
    else .ok none

/-- The loop body of `generate_multiple_ads`: walk the per-variation
call outcomes in order, collecting generated bytes, re-raising a
`RateLimitError` immediately (which abandons the remaining
variations). -/
def generate_multiple_ads_loop (outcomes : ℕ → AiCallOutcome) :
    ℕ → ℕ → List Img → Except String (List Img)
  | _, 0, acc => .ok acc
  | i, remaining + 1, acc =>
    match ai_generator_generate_ad_image (outcomes i) with
    | .error e => .error e
    | .ok (some img) => generate_multiple_ads_loop outcomes (i + 1) remaining (acc ++ [img])
    | .ok none => generate_multiple_ads_loop outcomes (i + 1) remaining acc

/-- `generate_multiple_ads` from src/services/ai_generator.py for
`num_variations` variations. -/
def generate_multiple_ads (outcomes : ℕ → AiCallOutcome)
    (num_variations : ℕ) : Except String (List Img) :=
  generate_multiple_ads_loop outcomes 0 num_variations []

/-! ## Style Extractor (src/services/visual_bible_creator.py) -/

/-- The dict `create_visual_bible` returns, with exactly the four keys
the source builds on both its paths. -/
structure VisualBible where
  full_analysis : String
  style_directive : String
  brand_name : String
  num_reference_images : ℕ
deriving DecidableEq

/-- The fallback value of the `except` branch of `create_visual_bible`:
a minimal guide synthesized from the brand and product text alone. -/
def fallback_visual_bible (brand_name product_description : String)
    (num_images : ℕ) : VisualBible :=
  { full_analysis := "Brand: " ++ brand_name ++ ". Product: " ++
      product_description ++ ". Professional photography style."
    style_directive := "Professional, high-quality photography for " ++
      brand_name ++ " showing " ++ product_description
    brand_name := brand_name
    num_reference_images := num_images }

/-- The outcome of the two sequential text/vision capability calls in
`create_visual_bible`: `some (analysis, directive)` when both succeed
with the given texts, `none` when either throws. -/
def BibleCallsOutcome : Type := Option (String × String)

/-- Python's `str.strip()`: drop leading and trailing whitespace. -/
def py_strip (s : String) : String :=
  String.mk
    (((s.data.dropWhile Char.isWhitespace).reverse.dropWhile
      Char.isWhitespace).reverse)

/-- `create_visual_bible` from src/services/visual_bible_creator.py: on
success it packages the analysis text and the stripped directive text;
on any exception it prints and returns the fallback guide.  Both paths
return a dict with the same four keys. -/
def create_visual_bible (brand_name product_description : String)
    (num_images : ℕ) (calls : BibleCallsOutcome) : VisualBible :=
  match calls with
  | some texts =>
    { full_analysis := texts.1
      style_directive := py_strip texts.2
      brand_name := brand_name
      num_reference_images := num_images }
  | none => fallback_visual_bible brand_name product_description num_images

/-! ## Compositor (src/services/image_compositor.py,
`create_final_ad_image`) -/

/-- The byte encoding of an image used throughout the embedding: width,
height, then the channels of the pixels in row-major order.  It stands
for the deterministic PNG encoder. -/
def png_encode (img : Img) : List ℕ :=
  img.w :: img.h ::
    (List.range img.h).flatMap (fun y =>
      (List.range img.w).flatMap (fun x =>
        [(img.pix x y).1, (img.pix x y).2.1, (img.pix x y).2.2]))

/-- The matching decoder (`Image.open`): fails on bytes that do not
carry a consistent raster. -/
def png_decode (bs : List ℕ) : Option Img :=
  match bs with
  | w :: h :: rest =>
    if rest.length = w * h * 3 then
      some ⟨w, h, fun x y =>
        (rest.getD ((y * w + x) * 3) 0,
         rest.getD ((y * w + x) * 3 + 1) 0,
         rest.getD ((y * w + x) * 3 + 2) 0)⟩
    else none
  | _ => none

/-- `_wrap_text`'s greedy loop over the whitespace-split words: keep a
word on the current line when
`current_length + word_length + len(current_line)` stays within the
limit, else flush the line. -/
def wrap_words (max_chars : ℕ) : List String → List String → ℕ →
    List String → List String
  | [], current, _, lines =>
    if current.isEmpty then lines else lines ++ [String.intercalate " " current]
  | word :: rest, current, current_length, lines =>
    if current_length + word.length + current.length ≤ max_chars then
      wrap_words max_chars rest (current ++ [word]) (current_length + word.length) lines
    else
      wrap_words max_chars rest [word] word.length
        (if current.isEmpty then lines else lines ++ [String.intercalate " " current])

/-- `_wrap_text` from src/services/image_compositor.py. -/
def wrap_text (text : String) (max_chars_per_line : ℕ) : String :=
  let words := (text.split Char.isWhitespace).filter (fun wrd => wrd ≠ "")
  String.intercalate "\n" (wrap_words max_chars_per_line words [] 0 [])

/-- Deterministic glyph coverage standing in for the font rasterizer:
whether drawing `line` anchored at `(x0, y0)` covers the pixel `(x, y)`.
The actual glyph shapes are abstracted; that the coverage is a fixed
function of the line and anchor is what matters here. -/
def glyph_covers (line : String) (x0 y0 : ℤ) (x y : ℕ) : Bool :=
  decide (x0 ≤ (x : ℤ) ∧ (x : ℤ) < x0 + 40 * line.length ∧
    y0 ≤ (y : ℤ) ∧ (y : ℤ) < y0 + 72 ∧ (x + y) % 2 = 0)

/-- One `draw.text` call: burn `color` into every covered pixel. -/
def draw_text_line (img : Img) (x0 y0 : ℤ) (color : Pixel) (line : String) : Img :=
  ⟨img.w, img.h, fun x y =>
    if glyph_covers line x0 y0 x y then color else img.pix x y⟩

/-- The per-line drawing loop of `create_final_ad_image`: for each
wrapped hook line, the black shadow offset by 3 pixels, then the white
foreground at padding 60, advancing 80 pixels per line. -/
def draw_hook_lines (img : Img) (y : ℤ) : List String → Img
  | [] => img
  | line :: rest =>
    let shadowed := draw_text_line img (60 + 3) (y + 3) (0, 0, 0) line
    let filled := draw_text_line shadowed 60 y (255, 255, 255) line
    draw_hook_lines filled (y + 80) rest

/-- `logo.thumbnail((150, 150), ...)`: scale down preserving aspect so
both sides fit within 150, leaving small logos untouched; the resampling
kernel is abstracted as `resize_nearest`. -/
def thumbnail_150 (img : Img) : Img :=
  if img.w ≤ 150 ∧ img.h ≤ 150 then img
  else
    let side := max img.w img.h
    resize_nearest img (img.w * 150 / side) (img.h * 150 / side)

/-- The semi-transparent backing-plate composite standing in for the
RGBA `paste`: a fixed alpha blend of the plate colour (alpha `a` out of
255) over the logo pixel. -/
def blend_over (plate : Pixel) (a : ℕ) (p : Pixel) : Pixel :=
  ((plate.1 * a + p.1 * (255 - a)) / 255,
   (plate.2.1 * a + p.2.1 * (255 - a)) / 255,
   (plate.2.2 * a + p.2.2 * (255 - a)) / 255)

/-- The logo branch of `create_final_ad_image`: thumbnail the logo,
anchor it at the top-right corner with padding 60, sample the mean
brightness of the covered background region, choose the light plate
(255, 255, 255, alpha 200) below brightness 128 and the dark plate
(0, 0, 0, alpha 150) otherwise, and paste. -/
def paste_logo (bg : Img) (logo0 : Img) : Img :=
  let logo := thumbnail_150 logo0
  let lx := bg.w - logo.w - 60
  let ly := 60
  let avg := avg_brightness (getdata (crop bg lx ly (lx + logo.w) (ly + logo.h)))
  let plate : Pixel × ℕ := if avg < 128 then ((255, 255, 255), 200) else ((0, 0, 0), 150)
  ⟨bg.w, bg.h, fun x y =>
    if lx ≤ x ∧ x < lx + logo.w ∧ ly ≤ y ∧ y < ly + logo.h then
      blend_over plate.1 plate.2 (logo.pix (x - lx) (y - ly))
    else bg.pix x y⟩

/-- `create_final_ad_image` from src/services/image_compositor.py: open
the background (propagating a decode failure), resize to 1080x1080 when
needed, pick the text position with `_find_best_text_position`, draw the
wrapped hook lines with shadow and fill, paste the logo when present
(swallowing any logo failure), and encode the flattened result. -/
def create_final_ad_image (background_bytes : List ℕ) (hook : String)
    (logo_bytes : Option (List ℕ)) : Except String (List ℕ) :=
  match png_decode background_bytes with
  | none => .error "cannot identify image file"
  | some bg0 =>
    let bg1 := if bg0.w = 1080 ∧ bg0.h = 1080 then bg0 else resize_nearest bg0 1080 1080
    let ypos := find_best_text_position bg1
    let lines := (wrap_text hook 25).splitOn "\n"
    let bg2 := draw_hook_lines bg1 ypos lines
    let bg3 :=
      match logo_bytes with
      | none => bg2
      | some lb =>
        match png_decode lb with
        | none => bg2
        | some lg => paste_logo bg2 lg
    .ok (png_encode bg3)

/-- The ambient state the repository's effectful operations consult: the
current UTC time (`datetime.now`, used by the scoring code) and a seed
for the random identifiers `uuid.uuid4` hands to `upload_file`. -/
structure Env where
  now : ℤ
  uuid_seed : ℕ
deriving DecidableEq

/-- An invocation of the compositor in an ambient state.  The body of
`create_final_ad_image` consults neither the clock nor the uuid source
nor any other mutable state, so the environment goes unused. -/
def run_create_final_ad_image (_env : Env) (background_bytes : List ℕ)
    (hook : String) (logo_bytes : Option (List ℕ)) : Except String (List ℕ) :=
  create_final_ad_image background_bytes hook logo_bytes

/-! ## Signed URLs and the download route (src/services/storage.py,
src/api/routes/generate.py lines 283-335) -/

/-- `Settings.signed_url_expiry_seconds` from src/config.py: the default
TTL of a viewing signed URL. -/
def signed_url_expiry_seconds : ℕ := 3600

/-- A signed-URL request as it reaches the object store:
bucket, path, and the TTL in seconds. -/
structure SignReq where
  bucket : String
  path : String
  expires_in : ℕ
deriving DecidableEq

/-- `StorageService.get_signed_url` from src/services/storage.py: its
body substitutes the settings default when `expires_in` is `None` and
asks the object store (`signer`) for the URL.  Its only parameters
besides `self` are `bucket`, `path` and `expires_in`. -/
def get_signed_url (signer : SignReq → String) (bucket path : String)
    (expires_in : Option ℕ) : String :=
  signer ⟨bucket, path, expires_in.getD signed_url_expiry_seconds⟩

/-- The keyword parameters `StorageService.get_signed_url` accepts. -/
def get_signed_url_params : List String := ["bucket", "path", "expires_in"]

/-- The keyword arguments `download_ad_image` passes in its
`storage.get_signed_url(...)` call (src/api/routes/generate.py lines
323-329). -/
def download_route_signing_kwargs : List String :=
  ["bucket", "path", "expires_in", "download", "download_filename"]

/-- Python call semantics for keyword arguments: the call binds only
when every supplied keyword names a declared parameter; otherwise it
raises `TypeError` before the body runs. -/
def kw_call_binds (declared supplied : List String) : Bool :=
  supplied.all (fun kw => declared.contains kw)

/-- The ways the download route can fail, as the caller observes them:
an `HTTPException` with a status code, or an uncaught Python
`TypeError`. -/
inductive RouteFailure where
  | http (status : ℕ)
  | type_error (message : String)
deriving DecidableEq

/-- A generated-ad-set record as the download route reads it: the set
id and the stored `adN_image_path` columns. -/
structure AdSet where
  set_id : String
  image_paths : ℕ → Option String

/-- Modelled from the spec: `DatabaseService.get_generated_ad_sets`, the
record-store query the route calls, is absent from src/ (only its caller
is present); per the record-store contract it returns the session's ad
set records, most recent first, here supplied as the already-fetched
list. -/
def get_generated_ad_sets (ad_sets : List AdSet) : List AdSet := ad_sets

/-- `download_ad_image` from src/api/routes/generate.py: validate
`ad_number`, take the most recent ad set, read `adN_image_path`, then
call `storage.get_signed_url` with `expires_in=300`, `download=True` and
`download_filename=...`.  The signing call is dispatched under Python
keyword-call semantics against the parameters the method declares. -/
def download_ad_image (ad_sets : List AdSet) (ad_number : ℕ)
    (signer : SignReq → String) (bucket_generated_ads : String) :
    Except RouteFailure (String × String) :=
  if ¬(1 ≤ ad_number ∧ ad_number ≤ 10) then .error (.http 400)
  else
    match get_generated_ad_sets ad_sets with
    | [] => .error (.http 404)
    | ad_set :: _ =>
      match ad_set.image_paths ad_number with
      | none => .error (.http 404)
      | some image_path =>
        let download_filename :=
          "adangle_ad_" ++ toString ad_number ++ "_" ++
            (ad_set.set_id.take 8) ++ ".png"
        if kw_call_binds get_signed_url_params download_route_signing_kwargs then
          .ok (get_signed_url signer bucket_generated_ads image_path (some 300),
            download_filename)
        else
          .error (.type_error
            "got an unexpected keyword argument while calling get_signed_url")

/-! ## Concrete sample inputs used to instantiate the theorems -/

/-- A raw SearchAPI ad that started at epoch 0 with an archive id. -/
def sample_raw_ad : RawAd :=
  { start_date := .parsed 0
    end_date := none
    ad_archive_id := some "123"
    archive_id := none
    raw_id := none
    page_id := some "99" }

/-- A 1x6 background whose top and bottom thirds are uniform black
(mean luminance 0, variance 0) and whose middle third holds one pixel of
luminance 100 and one of 160 (mean 130, variance 900). -/
def band_demo_image : Img :=
  ⟨1, 6, fun _ y =>
    if y = 2 then (100, 100, 100)
    else if y = 3 then (160, 160, 160)
    else (0, 0, 0)⟩

/-- A 1x3 uniform mid-gray background: every band has mean luminance 128
and variance 0. -/
def uniform_gray_image : Img :=
  ⟨1, 3, fun _ _ => (128, 128, 128)⟩

/-! # Theorems -/

/-- C1: for every candidate record the computed winner score equals the
reference definition (0 for a missing or unparsable `delivery_start`, 0
below 7 whole UTC days running, otherwise days running times 1.5 when
active and 1.0 when inactive); a candidate started exactly 10 days ago
with `is_active = true` scores 15.0, and one started 5 days ago scores
0.0 regardless of activity. -/
theorem C1_winner_score_matches_reference :
    (∀ (now : ℤ) (ad : AdScoreInput),
      calculate_winner_score now ad = spec_winner_score now ad) ∧
    (∀ now : ℤ,
      calculate_winner_score now ⟨.parsed (now - 10 * 86400), true⟩ = 15) ∧
    (∀ (now : ℤ) (active : Bool),
      calculate_winner_score now ⟨.parsed (now - 5 * 86400), active⟩ = 0) := by
  refine ⟨?_, ?_, ?_⟩
  · intro now ad
    rcases ad with ⟨ds, act⟩
    cases ds with
    | missing => rfl
    | unparsable => rfl
    | parsed start =>
      simp only [calculate_winner_score, spec_winner_score]
      rcases lt_or_le (whole_days now start) 7 with h7 | h7
      · rw [if_pos h7, if_pos (max_lt (by norm_num) h7)]
      · rw [if_neg (not_lt.mpr h7),
          max_eq_right (le_trans (by norm_num : (0 : ℤ) ≤ 7) h7),
          if_neg (not_lt.mpr h7)]
  · intro now
    have h : whole_days now (now - 10 * 86400) = 10 := by
      unfold whole_days
      rw [show now - (now - 10 * 86400) = 864000 by ring]
      decide
    simp only [calculate_winner_score, h]
    norm_num
  · intro now active
    have h : whole_days now (now - 5 * 86400) = 5 := by
      unfold whole_days
      rw [show now - (now - 5 * 86400) = 432000 by ring]
      decide
    simp only [calculate_winner_score, h]
    norm_num

/-- C10: `process_ad_data` sets `is_active` to `true` for every raw ad,
whatever its activity-related fields hold, while the analyze route
fetches with `active_status = "all"`; hence every newly scored candidate
with at least 7 whole days running gets the 1.5 multiplier. -/
theorem C10_processed_ads_always_active :
    (∀ (now : ℤ) (raw : RawAd), (process_ad_data now raw).is_active = true) ∧
    analyze_fetch_active_status = "all" ∧
    (∀ (now : ℤ) (raw : RawAd) (start : ℤ),
      raw.start_date = .parsed start →
      7 ≤ whole_days now start →
      (process_ad_data now raw).winner_score =
        (whole_days now start : ℚ) * (3 / 2)) := by
  refine ⟨fun now raw => rfl, rfl, ?_⟩
  intro now raw start hs h7
  simp only [process_ad_data, hs, calculate_winner_score]
  rw [if_neg (not_lt.mpr h7)]
  simp

/-- Witness for C10: a concrete raw ad that started 10 whole days before
`now = 864000` is processed with the 1.5 multiplier. -/
theorem C10_processed_ads_always_active_witness :
    sample_raw_ad.start_date = .parsed 0 ∧
    7 ≤ whole_days 864000 0 ∧
    (process_ad_data 864000 sample_raw_ad).winner_score =
      (whole_days 864000 0 : ℚ) * (3 / 2) :=
  ⟨rfl, by decide,
    C10_processed_ads_always_active.2.2 864000 sample_raw_ad 0 rfl (by decide)⟩

/-- A failed key lookup means no row of the table occupies the key. -/
theorem lookup_none_key_free {db : List AdRecord} {sid : String}
    {mid : Option String}
    (h : get_competitor_ad_by_meta_id db sid mid = none) :
    ∀ r ∈ db, ¬(r.session_id = sid ∧ r.ad_id = mid) := by
  intro r hr hk
  have hpred := List.find?_eq_none.mp h r hr
  apply hpred
  simp [hk.1, hk.2]

/-- One analyze iteration preserves the at-most-one-record-per-key
invariant of the `competitor_ads` table. -/
theorem process_one_ad_preserves_keys (now : ℤ) (sid : String)
    (st : AnalyzeState) (raw : RawAd)
    (hp : st.db.Pairwise key_distinct) :
    (process_one_ad now sid st raw).db.Pairwise key_distinct := by
  unfold process_one_ad
  split
  · exact hp
  · next hfind =>
    simp only [create_competitor_ad]
    rw [List.pairwise_append]
    refine ⟨hp, List.pairwise_singleton _ _, ?_⟩
    intro a ha b hb
    rcases List.mem_singleton.mp hb with rfl
    exact lookup_none_key_free hfind a ha

/-- The whole analyze loop preserves the key invariant. -/
theorem analyze_loop_preserves_keys (now : ℤ) (sid : String)
    (raws : List RawAd) :
    ∀ st : AnalyzeState, st.db.Pairwise key_distinct →
      (raws.foldl (process_one_ad now sid) st).db.Pairwise key_distinct := by
  induction raws with
  | nil => intro st hp; exact hp
  | cons r rs ih =>
    intro st hp
    exact ih _ (process_one_ad_preserves_keys now sid st r hp)

/-- C2: at most one competitor-ad record is ever persisted per
`(session_id, ad_id)` key — the analyze loop preserves pairwise key
distinctness of the table — and an iteration that finds the key already
persisted leaves the table untouched and answers with the existing
record's id. -/
theorem C2_dedup_key_unique (now : ℤ) (sid : String) (db : List AdRecord)
    (next_id : ℕ) (raws : List RawAd)
    (h : db.Pairwise key_distinct) :
    (analyze_competitor_loop now sid db next_id raws).db.Pairwise key_distinct ∧
    (∀ (st : AnalyzeState) (raw : RawAd) (existing : AdRecord),
      get_competitor_ad_by_meta_id st.db sid (process_ad_data now raw).ad_id =
        some existing →
      (process_one_ad now sid st raw).db = st.db ∧
      (process_one_ad now sid st raw).responses = st.responses ++
        [⟨existing.rec_id, (process_ad_data now raw).ad_id,
          (process_ad_data now raw).is_active,
          (process_ad_data now raw).winner_score⟩]) := by
  constructor
  · exact analyze_loop_preserves_keys now sid raws ⟨db, next_id, []⟩ h
  · intro st raw existing hfind
    unfold process_one_ad
    rw [hfind]
    exact ⟨rfl, rfl⟩

/-- Witness for C2: a one-row table with a key already in place keeps
exactly that row when the same raw ad is analyzed again, and the
repeated iteration answers with the stored id 0. -/
theorem C2_dedup_key_unique_witness :
    ([⟨0, "s", some "123", 15⟩] : List AdRecord).Pairwise key_distinct ∧
    ((analyze_competitor_loop 864000 "s" [⟨0, "s", some "123", 15⟩] 1
        [sample_raw_ad]).db.Pairwise key_distinct ∧
      (∀ (st : AnalyzeState) (raw : RawAd) (existing : AdRecord),
        get_competitor_ad_by_meta_id st.db "s"
            (process_ad_data 864000 raw).ad_id = some existing →
        (process_one_ad 864000 "s" st raw).db = st.db ∧
        (process_one_ad 864000 "s" st raw).responses = st.responses ++
          [⟨existing.rec_id, (process_ad_data 864000 raw).ad_id,
            (process_ad_data 864000 raw).is_active,
            (process_ad_data 864000 raw).winner_score⟩])) :=
  ⟨by decide,
    C2_dedup_key_unique 864000 "s" [⟨0, "s", some "123", 15⟩] 1
      [sample_raw_ad] (by decide)⟩

/-- Membership in a stable descending insertion. -/
theorem mem_insert_desc {x z : RespEntry} {l : List RespEntry} :
    z ∈ insert_desc x l ↔ z = x ∨ z ∈ l := by
  induction l with
  | nil => simp [insert_desc]
  | cons y ys ih =>
    simp only [insert_desc]
    split
    · simp only [List.mem_cons]
    · simp only [List.mem_cons, ih]
      tauto

/-- Stable descending insertion keeps a list non-increasing in
`winner_score`. -/
theorem pairwise_insert_desc {x : RespEntry} {l : List RespEntry}
    (h : l.Pairwise score_ge) : (insert_desc x l).Pairwise score_ge := by
  induction l with
  | nil => simp [insert_desc, score_ge]
  | cons y ys ih =>
    rcases List.pairwise_cons.mp h with ⟨hy, hys⟩
    simp only [insert_desc]
    split
    · next hle =>
      refine List.pairwise_cons.mpr ⟨?_, h⟩
      intro b hb
      rcases List.mem_cons.mp hb with rfl | hb
      · exact hle
      · exact le_trans (hy b hb) hle
    · next hgt =>
      refine List.pairwise_cons.mpr ⟨?_, ih hys⟩
      intro b hb
      rcases mem_insert_desc.mp hb with rfl | hb
      · exact le_of_lt (lt_of_not_le hgt)
      · exact hy b hb

/-- Insertion commutes with filtering on any fixed score value: every
entry the insertion passes over has a strictly larger score than the
inserted one, so it cannot share its score. -/
theorem filter_insert_desc (x : RespEntry) (l : List RespEntry) (s : ℚ) :
    (insert_desc x l).filter (fun a => decide (a.winner_score = s)) =
      if x.winner_score = s then
        x :: l.filter (fun a => decide (a.winner_score = s))
      else l.filter (fun a => decide (a.winner_score = s)) := by
  induction l with
  | nil =>
    simp only [insert_desc, List.filter]
    split_ifs with hx
    · simp [hx]
    · simp [hx]
  | cons y ys ih =>
    simp only [insert_desc]
    split
    · next hle =>
      simp only [List.filter_cons, decide_eq_true_eq]
    · next hgt =>
      by_cases hx : x.winner_score = s
      · have hy : ¬(y.winner_score = s) := by
          intro hy
          exact hgt (by rw [hy, hx])
        simp [List.filter_cons, ih, hx, hy]
      · simp [List.filter_cons, ih, hx]

/-- The stable descending sort is non-increasing in `winner_score`. -/
theorem pairwise_sort_by_score_desc (l : List RespEntry) :
    (sort_by_score_desc l).Pairwise score_ge := by
  induction l with
  | nil => simp [sort_by_score_desc]
  | cons x xs ih => exact pairwise_insert_desc ih

/-- The stable descending sort preserves the subsequence of entries at
any fixed score value, in their original order. -/
theorem filter_sort_by_score_desc (l : List RespEntry) (s : ℚ) :
    (sort_by_score_desc l).filter (fun a => decide (a.winner_score = s)) =
      l.filter (fun a => decide (a.winner_score = s)) := by
  induction l with
  | nil => rfl
  | cons x xs ih =>
    simp only [sort_by_score_desc, filter_insert_desc, ih, List.filter_cons,
      decide_eq_true_eq]

/-- C4: both ranked lists the ranking operations return — the analyze
route's top five and the GET route's full list — are sorted
non-increasing in `winner_score`, and the sort is stable: at every score
value the returned entries are exactly (for the GET route) or an initial
run of (for the truncated analyze list) the equal-score entries in their
original fetch order. -/
theorem C4_ranked_lists_sorted_and_stable (fetched : List RespEntry) :
    (get_competitor_ads_route fetched).Pairwise score_ge ∧
    (∀ s : ℚ,
      (get_competitor_ads_route fetched).filter
          (fun a => decide (a.winner_score = s)) =
        fetched.filter (fun a => decide (a.winner_score = s))) ∧
    (analyze_top_winners fetched).Pairwise score_ge ∧
    (∀ s : ℚ, ∃ rest,
      fetched.filter (fun a => decide (a.winner_score = s)) =
        (analyze_top_winners fetched).filter
            (fun a => decide (a.winner_score = s)) ++ rest) := by
  refine ⟨pairwise_sort_by_score_desc fetched,
    fun s => filter_sort_by_score_desc fetched s, ?_, ?_⟩
  · exact List.Pairwise.sublist (List.take_sublist 5 (sort_by_score_desc fetched))
      (pairwise_sort_by_score_desc fetched)
  · intro s
    refine ⟨((sort_by_score_desc fetched).drop 5).filter
      (fun a => decide (a.winner_score = s)), ?_⟩
    rw [← filter_sort_by_score_desc fetched s]
    conv_lhs => rw [← List.take_append_drop 5 (sort_by_score_desc fetched)]
    rw [List.filter_append]
    rfl

/-- An error carrying the quota signature makes
`ai_generator.generate_ad_image` raise. -/
theorem ai_generator_raises_on_sig (e : String)
    (h : rate_limit_sig e = true) :
    ∃ msg, ai_generator_generate_ad_image (.error e) = .error msg := by
  by_cases hd : (str_has e "limit: 0" || str_has e "PerDay") = true
  · exact ⟨"Gemini API daily quota exhausted. Please enable billing at " ++
      "https://aistudio.google.com/ or wait until tomorrow for quota reset.",
      by simp [ai_generator_generate_ad_image, h, hd]⟩
  · have hd2 : (str_has e "limit: 0" || str_has e "PerDay") = false :=
      Bool.not_eq_true _ ▸ (Bool.of_not_eq_true hd)
    exact ⟨"Gemini API rate limited: " ++ e,
      by simp [ai_generator_generate_ad_image, h, hd2]⟩

/-- C6 (amended): in `ai_generator.generate_ad_image` a quota-signature
error raises `RateLimitError`, distinctly from generic failure (which is
absorbed into `None`), and `generate_multiple_ads` re-raises it
immediately, abandoning the remaining variations; but the synthesizer
the generate route's fan-out actually calls
(`image_generator.generate_ad_image`) absorbs every error — the
quota-signature ones included — into the placeholder gradient. -/
theorem C6_rate_limit_raising_lives_outside_pipeline :
    (∀ e : String, rate_limit_sig e = true →
      ∃ msg, ai_generator_generate_ad_image (.error e) = .error msg) ∧
    (∀ e : String, rate_limit_sig e = false →
      ai_generator_generate_ad_image (.error e) = .ok none) ∧
    (∀ (outcomes : ℕ → AiCallOutcome) (i n : ℕ) (acc : List Img) (e : String),
      rate_limit_sig e = true → outcomes i = .error e →
      ∃ msg, generate_multiple_ads_loop outcomes i (n + 1) acc = .error msg) ∧
    (∀ (e : String) (t : ℕ),
      image_generator_generate_ad_image (.error (e, t)) =
        (create_fallback_image, t)) := by
  refine ⟨ai_generator_raises_on_sig, ?_, ?_, fun e t => rfl⟩
  · intro e h
    simp [ai_generator_generate_ad_image, h]
  · intro outcomes i n acc e hsig hout
    obtain ⟨msg, hmsg⟩ := ai_generator_raises_on_sig e hsig
    refine ⟨msg, ?_⟩
    simp only [generate_multiple_ads_loop, hout, hmsg]

/-- Witness for the amended C6: a concrete daily-quota error string
raises in the `ai_generator` path, short-circuits
`generate_multiple_ads`, is distinct from a generic failure, and is
nevertheless absorbed into the placeholder by the pipeline
synthesizer. -/
theorem C6_rate_limit_raising_lives_outside_pipeline_witness :
    rate_limit_sig "429 RESOURCE_EXHAUSTED PerDay" = true ∧
    (∃ msg, ai_generator_generate_ad_image
      (.error "429 RESOURCE_EXHAUSTED PerDay") = .error msg) ∧
    rate_limit_sig "connection reset" = false ∧
    ai_generator_generate_ad_image (.error "connection reset") = .ok none ∧
    (∃ msg, generate_multiple_ads_loop
      (fun _ => .error "429 RESOURCE_EXHAUSTED PerDay") 0 (2 + 1) [] =
        .error msg) ∧
    image_generator_generate_ad_image
      (.error ("429 RESOURCE_EXHAUSTED PerDay", 3)) =
        (create_fallback_image, 3) :=
  ⟨by decide,
    C6_rate_limit_raising_lives_outside_pipeline.1
      "429 RESOURCE_EXHAUSTED PerDay" (by decide),
    by decide,
    C6_rate_limit_raising_lives_outside_pipeline.2.1
      "connection reset" (by decide),
    C6_rate_limit_raising_lives_outside_pipeline.2.2.1
      (fun _ => .error "429 RESOURCE_EXHAUSTED PerDay") 0 2 [] _ (by decide) rfl,
    C6_rate_limit_raising_lives_outside_pipeline.2.2.2
      "429 RESOURCE_EXHAUSTED PerDay" 3⟩

/-- Counterexample to C6 as stated: inside the generation pipeline a
synthesis error carrying the quota-exhaustion signature is not raised
and propagated — the route's synthesizer returns the placeholder
gradient for it, exactly as for any other failure. -/
theorem C6_counterexample_pipeline_absorbs_rate_limit :
    rate_limit_sig "429 RESOURCE_EXHAUSTED: quota PerDay reached" = true ∧
    image_generator_generate_ad_image
      (.error ("429 RESOURCE_EXHAUSTED: quota PerDay reached", 0)) =
      (create_fallback_image, 0) :=
  ⟨by decide, rfl⟩

/-- C3: evaluation of the fan-out on the code as written.  The
synthesizer does substitute the deterministic placeholder for a failed
synthesis call, but both `GeneratedAd(...)` constructions in
`generate_and_composite_ad` omit the required `framework`, `body` and
`cta` fields of the class in src/models/schemas.py, so every
per-concept task raises `ValidationError` — the try branch's
construction fails, and the except handler's construction fails too,
uncaught — and the gather propagates it: for any batch and any
outcomes the fan-out yields an exception, never the claimed one entry
per concept. -/
theorem C3_fan_out_raises_validation_error :
    (∀ (e : String) (t : ℕ),
      image_generator_generate_ad_image (.error (e, t)) =
        (create_fallback_image, t)) ∧
    (∀ hook visual_concept : String,
      pydantic_construct_generated_ad
          (route_generated_ad_kwargs hook visual_concept) = .error
        "ValidationError: framework, body and cta are required fields of GeneratedAd") ∧
    (∀ (c : Concept) (synth : SynthOutcome) (upload : UploadOutcome),
      generate_and_composite_ad c synth upload = .error
        "ValidationError: framework, body and cta are required fields of GeneratedAd") ∧
    generate_route_fan_out [⟨"prompt", "hook"⟩]
      (fun _ => .error ("boom", 7)) (fun _ _ => .ok ("sess/ad_1.png", "url")) =
      .error
        "ValidationError: framework, body and cta are required fields of GeneratedAd" := by
  refine ⟨fun e t => rfl, fun hook visual_concept => rfl, ?_, rfl⟩
  intro c synth upload
  unfold generate_and_composite_ad
  cases upload (image_generator_generate_ad_image synth).1 with
  | ok pu => rfl
  | error e => rfl

/-- Witness for C3: a single concept whose synthesis call fails still
yields exactly one entry, and the bytes handed on are the placeholder
gradient. -/
theorem select_loop_skip (img : Img) (r : Region) (rs : List Region)
    (best : Region) (bs : ℚ) (h : (region_pixels img r).isEmpty = true) :
    select_loop img (r :: rs) best bs = select_loop img rs best bs := by
  simp [select_loop, h]

theorem select_loop_better (img : Img) (r : Region) (rs : List Region)
    (best : Region) (bs : ℚ) (hne : (region_pixels img r).isEmpty = false)
    (hlt : bs < region_score img r) :
    select_loop img (r :: rs) best bs =
      select_loop img rs r (region_score img r) := by
  simp [select_loop, hne, hlt]

theorem select_loop_not_better (img : Img) (r : Region) (rs : List Region)
    (best : Region) (bs : ℚ) (hne : (region_pixels img r).isEmpty = false)
    (hnlt : ¬ bs < region_score img r) :
    select_loop img (r :: rs) best bs = select_loop img rs best bs := by
  simp [select_loop, hne, hnlt]

/-- What the selection loop settles on: either the running best survives
and every non-empty candidate scored no better than the running score,
or the result is a non-empty candidate from the list that strictly beat
the running score and is not out-scored by any non-empty candidate. -/
theorem select_loop_spec (img : Img) : ∀ (rs : List Region) (best : Region)
    (bs : ℚ),
    (select_loop img rs best bs = best ∧
      ∀ r ∈ rs, (region_pixels img r).isEmpty = false →
        region_score img r ≤ bs) ∨
    (select_loop img rs best bs ∈ rs ∧
      (region_pixels img (select_loop img rs best bs)).isEmpty = false ∧
      bs < region_score img (select_loop img rs best bs) ∧
      ∀ r ∈ rs, (region_pixels img r).isEmpty = false →
        region_score img r ≤ region_score img (select_loop img rs best bs)) := by
  intro rs
  induction rs with
  | nil =>
    intro best bs
    left
    exact ⟨rfl, by simp⟩
  | cons r rs ih =>
    intro best bs
    by_cases hE : (region_pixels img r).isEmpty = true
    · rw [select_loop_skip img r rs best bs hE]
      rcases ih best bs with ⟨heq, hall⟩ | ⟨hmem, hne, hlt, hall⟩
      · left
        refine ⟨heq, ?_⟩
        intro x hx hxne
        rcases List.mem_cons.mp hx with rfl | hx
        · rw [hE] at hxne
          exact absurd hxne (by simp)
        · exact hall x hx hxne
      · right
        refine ⟨List.mem_cons_of_mem r hmem, hne, hlt, ?_⟩
        intro x hx hxne
        rcases List.mem_cons.mp hx with rfl | hx
        · rw [hE] at hxne
          exact absurd hxne (by simp)
        · exact hall x hx hxne
    · have hne : (region_pixels img r).isEmpty = false := by
        cases hv : (region_pixels img r).isEmpty
        · rfl
        · exact absurd hv hE
      by_cases hlt : bs < region_score img r
      · rw [select_loop_better img r rs best bs hne hlt]
        rcases ih r (region_score img r) with ⟨heq, hall⟩ | ⟨hmem, hne2, hlt2, hall⟩
        · right
          rw [heq]
          refine ⟨List.mem_cons_self r rs, hne, hlt, ?_⟩
          intro x hx hxne
          rcases List.mem_cons.mp hx with rfl | hx
          · exact le_refl _
          · exact hall x hx hxne
        · right
          refine ⟨List.mem_cons_of_mem r hmem, hne2, lt_trans hlt hlt2, ?_⟩
          intro x hx hxne
          rcases List.mem_cons.mp hx with rfl | hx
          · exact le_of_lt hlt2
          · exact hall x hx hxne
      · rw [select_loop_not_better img r rs best bs hne hlt]
        rcases ih best bs with ⟨heq, hall⟩ | ⟨hmem, hne2, hlt2, hall⟩
        · left
          refine ⟨heq, ?_⟩
          intro x hx hxne
          rcases List.mem_cons.mp hx with rfl | hx
          · exact not_lt.mp hlt
          · exact hall x hx hxne
        · right
          refine ⟨List.mem_cons_of_mem r hmem, hne2, hlt2, ?_⟩
          intro x hx hxne
          rcases List.mem_cons.mp hx with rfl | hx
          · exact le_of_lt (lt_of_le_of_lt (not_lt.mp hlt) hlt2)
          · exact hall x hx hxne

/-- A luminance variance is a mean of squares, hence non-negative. -/
theorem brightness_variance_nonneg (ps : List Pixel) :
    0 ≤ brightness_variance ps := by
  unfold brightness_variance
  apply div_nonneg
  · apply List.sum_nonneg
    intro x hx
    rcases List.mem_map.mp hx with ⟨p, _, rfl⟩
    exact sq_nonneg _
  · exact_mod_cast Nat.zero_le _

/-- An in-range band pays no brightness penalty, so its score is
`1000 - variance`; with variance below 50 it beats 950. -/
theorem in_range_low_variance_score (img : Img) (r : Region)
    (hin : in_brightness_range (avg_brightness (region_pixels img r)))
    (hvar : brightness_variance (region_pixels img r) < 50) :
    950 < region_score img r := by
  unfold region_score
  have hpen : brightness_penalty (avg_brightness (region_pixels img r)) = 0 := by
    unfold brightness_penalty
    rw [if_neg]
    rintro (h1 | h2)
    · exact absurd hin.2 (not_le.mpr h1)
    · exact absurd hin.1 (not_le.mpr h2)
  rw [hpen]
  linarith

/-- An out-of-range band pays the 50-point penalty, so its score is at
most 950. -/
theorem out_of_range_score_le (img : Img) (r : Region)
    (hout : ¬ in_brightness_range (avg_brightness (region_pixels img r))) :
    region_score img r ≤ 950 := by
  unfold region_score
  have hpen : brightness_penalty (avg_brightness (region_pixels img r)) = 50 := by
    unfold brightness_penalty
    rw [if_pos]
    unfold in_brightness_range at hout
    push_neg at hout
    by_cases h1 : 50 ≤ avg_brightness (region_pixels img r)
    · exact Or.inl (hout h1)
    · exact Or.inr (not_le.mp h1)
  rw [hpen]
  have := brightness_variance_nonneg (region_pixels img r)
  linarith

theorem band_demo_regions : regions_of band_demo_image =
    [⟨"top", 60, 0, 0, 1, 2⟩, ⟨"middle", -97, 0, 2, 1, 4⟩,
      ⟨"bottom", -214, 0, 4, 1, 6⟩] := rfl

theorem band_demo_top_pixels :
    region_pixels band_demo_image ⟨"top", 60, 0, 0, 1, 2⟩ =
      [(0, 0, 0), (0, 0, 0)] := rfl

theorem band_demo_mid_pixels :
    region_pixels band_demo_image ⟨"middle", -97, 0, 2, 1, 4⟩ =
      [(100, 100, 100), (160, 160, 160)] := rfl

theorem band_demo_bot_pixels :
    region_pixels band_demo_image ⟨"bottom", -214, 0, 4, 1, 6⟩ =
      [(0, 0, 0), (0, 0, 0)] := rfl

theorem band_demo_mid_avg :
    avg_brightness [((100, 100, 100) : Pixel), (160, 160, 160)] = 130 := by
  norm_num [avg_brightness]

theorem band_demo_mid_var :
    brightness_variance [((100, 100, 100) : Pixel), (160, 160, 160)] = 900 := by
  norm_num [brightness_variance, brightness_mean, pixel_brightness]

theorem band_demo_dark_avg :
    avg_brightness [((0, 0, 0) : Pixel), (0, 0, 0)] = 0 := by
  norm_num [avg_brightness]

theorem band_demo_dark_var :
    brightness_variance [((0, 0, 0) : Pixel), (0, 0, 0)] = 0 := by
  norm_num [brightness_variance, brightness_mean, pixel_brightness]

theorem band_demo_top_score :
    region_score band_demo_image ⟨"top", 60, 0, 0, 1, 2⟩ = 950 := by
  unfold region_score
  rw [band_demo_top_pixels, band_demo_dark_var, band_demo_dark_avg]
  norm_num [brightness_penalty]

theorem band_demo_mid_score :
    region_score band_demo_image ⟨"middle", -97, 0, 2, 1, 4⟩ = 100 := by
  unfold region_score
  rw [band_demo_mid_pixels, band_demo_mid_var, band_demo_mid_avg]
  norm_num [brightness_penalty]

theorem band_demo_bot_score :
    region_score band_demo_image ⟨"bottom", -214, 0, 4, 1, 6⟩ = 950 := by
  unfold region_score
  rw [band_demo_bot_pixels, band_demo_dark_var, band_demo_dark_avg]
  norm_num [brightness_penalty]

/-- On the demo background the loop keeps the uniform black top band:
its score 950 beats the start value -1, the in-range middle band's 100
does not beat 950, and the bottom band only ties. -/
theorem band_demo_selected :
    select_best_region band_demo_image = ⟨"top", 60, 0, 0, 1, 2⟩ := by
  unfold select_best_region
  rw [band_demo_regions]
  rw [show ([⟨"top", 60, 0, 0, 1, 2⟩, ⟨"middle", -97, 0, 2, 1, 4⟩,
      ⟨"bottom", -214, 0, 4, 1, 6⟩] : List Region).getLast! =
    ⟨"bottom", -214, 0, 4, 1, 6⟩ from rfl]
  rw [select_loop_better band_demo_image ⟨"top", 60, 0, 0, 1, 2⟩
    [⟨"middle", -97, 0, 2, 1, 4⟩, ⟨"bottom", -214, 0, 4, 1, 6⟩]
    ⟨"bottom", -214, 0, 4, 1, 6⟩ (-1) rfl
    (by rw [band_demo_top_score]; norm_num)]
  rw [select_loop_not_better band_demo_image ⟨"middle", -97, 0, 2, 1, 4⟩
    [⟨"bottom", -214, 0, 4, 1, 6⟩] ⟨"top", 60, 0, 0, 1, 2⟩
    (region_score band_demo_image ⟨"top", 60, 0, 0, 1, 2⟩) rfl
    (by rw [band_demo_mid_score, band_demo_top_score]; norm_num)]
  rw [select_loop_not_better band_demo_image ⟨"bottom", -214, 0, 4, 1, 6⟩
    [] ⟨"top", 60, 0, 0, 1, 2⟩
    (region_score band_demo_image ⟨"top", 60, 0, 0, 1, 2⟩) rfl
    (by rw [band_demo_bot_score, band_demo_top_score]; norm_num)]
  rfl

/-- Counterexample to C5 as stated: on `band_demo_image` the middle band
is non-empty, in range (mean 130) and scores 100 ≥ 0, yet the selection
settles on the uniform black top band, whose mean luminance 0 lies
outside [50, 200] — the 50-point penalty does not outweigh a variance
advantage of 800. -/
theorem C5_counterexample_out_of_range_band_selected :
    (∃ r ∈ regions_of band_demo_image,
      (region_pixels band_demo_image r).isEmpty = false ∧
      in_brightness_range (avg_brightness (region_pixels band_demo_image r)) ∧
      0 ≤ region_score band_demo_image r) ∧
    ¬ in_brightness_range
      (avg_brightness (region_pixels band_demo_image
        (select_best_region band_demo_image))) := by
  constructor
  · refine ⟨⟨"middle", -97, 0, 2, 1, 4⟩, ?_, ?_, ?_, ?_⟩
    · rw [band_demo_regions]
      exact List.mem_cons_of_mem _ (List.mem_cons_self _ _)
    · rfl
    · rw [band_demo_mid_pixels, band_demo_mid_avg]
      exact ⟨by norm_num, by norm_num⟩
    · rw [band_demo_mid_score]
      norm_num
  · rw [band_demo_selected, band_demo_top_pixels, band_demo_dark_avg]
    intro hcontra
    exact absurd hcontra.1 (by norm_num)

/-- C5 (amended): the band selection never settles on a band whose mean
luminance lies outside [50, 200] whenever some non-empty band with mean
luminance inside [50, 200] has variance strictly below 50 — such a band
scores above 950, which no out-of-range band can reach.  (The claim's
original premise, an in-range band of merely non-negative score, is not
enough: see the counterexample.) -/
theorem C5_band_selection_respects_range (img : Img) (r : Region)
    (hmem : r ∈ regions_of img)
    (hne : (region_pixels img r).isEmpty = false)
    (hin : in_brightness_range (avg_brightness (region_pixels img r)))
    (hvar : brightness_variance (region_pixels img r) < 50) :
    in_brightness_range
      (avg_brightness (region_pixels img (select_best_region img))) := by
  have hscore := in_range_low_variance_score img r hin hvar
  unfold select_best_region
  rcases select_loop_spec img (regions_of img) (regions_of img).getLast! (-1)
    with ⟨heq, hall⟩ | ⟨hmem2, hne2, hlt2, hall⟩
  · exfalso
    have := hall r hmem hne
    linarith
  · by_contra hout
    have hle := out_of_range_score_le img _ hout
    have hge := hall r hmem hne
    linarith

theorem gray_regions : regions_of uniform_gray_image =
    [⟨"top", 60, 0, 0, 1, 1⟩, ⟨"middle", -99, 0, 1, 1, 2⟩,
      ⟨"bottom", -217, 0, 2, 1, 3⟩] := rfl

theorem gray_top_pixels :
    region_pixels uniform_gray_image ⟨"top", 60, 0, 0, 1, 1⟩ =
      [(128, 128, 128)] := rfl

theorem gray_top_avg : avg_brightness [((128, 128, 128) : Pixel)] = 128 := by
  norm_num [avg_brightness]

theorem gray_top_var :
    brightness_variance [((128, 128, 128) : Pixel)] = 0 := by
  norm_num [brightness_variance, brightness_mean, pixel_brightness]

/-- Witness for the amended C5: on a uniform mid-gray background the top
band is in range with variance 0, and the selected band is indeed in
range. -/
theorem C5_band_selection_respects_range_witness :
    ((⟨"top", 60, 0, 0, 1, 1⟩ : Region) ∈ regions_of uniform_gray_image ∧
      (region_pixels uniform_gray_image ⟨"top", 60, 0, 0, 1, 1⟩).isEmpty = false ∧
      in_brightness_range (avg_brightness
        (region_pixels uniform_gray_image ⟨"top", 60, 0, 0, 1, 1⟩)) ∧
      brightness_variance
        (region_pixels uniform_gray_image ⟨"top", 60, 0, 0, 1, 1⟩) < 50) ∧
    in_brightness_range (avg_brightness
      (region_pixels uniform_gray_image
        (select_best_region uniform_gray_image))) :=
  ⟨⟨by rw [gray_regions]; exact List.mem_cons_self _ _,
    rfl,
    by rw [gray_top_pixels, gray_top_avg]; exact ⟨by norm_num, by norm_num⟩,
    by rw [gray_top_pixels, gray_top_var]; norm_num⟩,
   C5_band_selection_respects_range uniform_gray_image ⟨"top", 60, 0, 0, 1, 1⟩
     (by rw [gray_regions]; exact List.mem_cons_self _ _)
     rfl
     (by rw [gray_top_pixels, gray_top_avg]; exact ⟨by norm_num, by norm_num⟩)
     (by rw [gray_top_pixels, gray_top_var]; norm_num)⟩

/-- C7 (amended): when the text/vision capability fails, the style
extractor does not raise: it returns exactly the fallback guide, whose
`style_directive` is non-empty and synthesized deterministically from
the brand name and product description alone (independent even of how
many reference images were supplied), so the pipeline continues.  It
does not, however, flag the run as degraded — see the counterexample. -/
theorem C7_style_extractor_degrades_gracefully (brand_name
    product_description : String) (num_images : ℕ) :
    create_visual_bible brand_name product_description num_images none =
      fallback_visual_bible brand_name product_description num_images ∧
    (create_visual_bible brand_name product_description num_images
      none).style_directive ≠ "" ∧
    (∀ other_count : ℕ,
      (create_visual_bible brand_name product_description other_count
        none).style_directive =
      (create_visual_bible brand_name product_description num_images
        none).style_directive) := by
  refine ⟨rfl, ?_, fun other_count => rfl⟩
  intro hempty
  have hlen := congrArg String.length hempty
  simp [create_visual_bible, fallback_visual_bible,
    String.length_append] at hlen
  exact absurd hlen.1.1.1 (by decide)

/-- Counterexample to the flag part of C7: no function of the returned
structure can tell a degraded run from a successful one, because a
successful capability call returning exactly the fallback texts yields a
result identical to the failure path's — the dict carries no
degraded-source flag (the failure is only printed to the console). -/
theorem C7_counterexample_no_degraded_flag :
    ¬ ∃ flag : VisualBible → Bool,
      ∀ (brand_name product_description : String) (num_images : ℕ)
        (calls : BibleCallsOutcome),
        flag (create_visual_bible brand_name product_description num_images
          calls) = calls.isNone := by
  rintro ⟨flag, hflag⟩
  have heq : create_visual_bible "B" "P" 1
      (some ("Brand: B. Product: P. Professional photography style.",
        "Professional, high-quality photography for B showing P")) =
      create_visual_bible "B" "P" 1 none := by decide
  have h1 := hflag "B" "P" 1
    (some ("Brand: B. Product: P. Professional photography style.",
      "Professional, high-quality photography for B showing P"))
  have h2 := hflag "B" "P" 1 none
  rw [heq] at h1
  rw [h1] at h2
  simp at h2

/-- C8: the compositor is deterministic — its output reads none of the
ambient state (clock, uuid source) the repository's other operations
consult, so two invocations on the same background bytes, hook and logo
agree byte for byte; moreover the output depends on the background bytes
only through the decoded raster. -/
theorem C8_compositor_deterministic :
    (∀ (env1 env2 : Env) (background_bytes : List ℕ) (hook : String)
      (logo_bytes : Option (List ℕ)),
      run_create_final_ad_image env1 background_bytes hook logo_bytes =
        run_create_final_ad_image env2 background_bytes hook logo_bytes) ∧
    (∀ (bytes1 bytes2 : List ℕ) (hook : String)
      (logo_bytes : Option (List ℕ)),
      png_decode bytes1 = png_decode bytes2 →
      create_final_ad_image bytes1 hook logo_bytes =
        create_final_ad_image bytes2 hook logo_bytes) := by
  refine ⟨fun _ _ _ _ _ => rfl, ?_⟩
  intro bytes1 bytes2 hook logo_bytes h
  unfold create_final_ad_image
  rw [h]

/-- Witness for C8: two invocations of the compositor on a concrete
1x1 background under different ambient states agree. -/
theorem C8_compositor_deterministic_witness :
    png_decode [1, 1, 5, 5, 5] = png_decode [1, 1, 5, 5, 5] ∧
    run_create_final_ad_image ⟨0, 0⟩ [1, 1, 5, 5, 5] "Hi" none =
      run_create_final_ad_image ⟨86400, 99⟩ [1, 1, 5, 5, 5] "Hi" none ∧
    create_final_ad_image [1, 1, 5, 5, 5] "Hi" none =
      create_final_ad_image [1, 1, 5, 5, 5] "Hi" none :=
  ⟨rfl,
    C8_compositor_deterministic.1 ⟨0, 0⟩ ⟨86400, 99⟩ [1, 1, 5, 5, 5] "Hi" none,
    C8_compositor_deterministic.2 [1, 1, 5, 5, 5] [1, 1, 5, 5, 5] "Hi" none rfl⟩

/-- C9: the forced-download route cannot return its 5-minute signed URL
with a browser-download disposition: it passes the keyword arguments
`download` and `download_filename`, which `StorageService.get_signed_url`
does not declare, so under Python call semantics the request dies with a
`TypeError` on any reachable ad image; the viewing path's TTL does
default to 1 hour (3600 seconds). -/
theorem C9_download_route_raises_type_error :
    kw_call_binds get_signed_url_params download_route_signing_kwargs = false ∧
    (∀ signer : SignReq → String,
      download_ad_image
        [⟨"abcd1234-0000", fun i => if i = 1 then some "sess/ad_1.png" else none⟩]
        1 signer "generated-ads" =
        .error (.type_error
          "got an unexpected keyword argument while calling get_signed_url")) ∧
    (∀ (signer : SignReq → String) (bucket path : String),
      get_signed_url signer bucket path none = signer ⟨bucket, path, 3600⟩) :=
  ⟨rfl, fun _ => rfl, fun _ _ _ => rfl⟩

end VexAds
